import Mathlib

/-!
# Verification of the smoltcp example server (`examples/server.rs`)

This file gives a shallow embedding of the poll-loop server example:
one UDP echo service (port 6969) and four TCP services (greeter 6969,
reverse-echo 6970, sinkhole 6971, fountain 6972), each re-entered once
per poll iteration.  Bytes are modelled as `Nat` (values < 256 in all
concrete inputs), buffers as `List Nat`, and the socket-API calls a
handler makes in one iteration as explicit action lists.  Places where
a handler `unwrap`s a fallible operation are modelled with `Except`:
an `.error` value is a panic of the process.

The smoltcp protocol engine itself (TCP state machine, timers) is not
part of the sources; where a claim needs it, a definition explicitly
marked `Modelled from the spec:` supplies the behaviour the spec
describes for it.
-/

namespace SmoltcpServer

/-- Bytes of the fixed reply `b"hello\n"` used by the UDP echo and the
TCP greeter (`writeln!(socket, "hello")`). -/
def helloLine : List Nat := [104, 101, 108, 108, 111, 10]

/-! ## Reverse-echo transform (tcp:6970 recv closure)

Source, `examples/server.rs` lines 134-148:
```
let recvd_len = buffer.len();
let mut data = buffer.to_owned();
if !data.is_empty() {
    data = data.split(|&b| b == b'\n').collect::<Vec<_>>().concat();
    data.reverse();
    data.extend(b"\n");
}
(recvd_len, data)
```
-/

/-- Rust `slice::split(|&b| b == sep)`: the subsequences between (and not
including) the separator bytes; both an empty input and a trailing
separator produce a trailing empty segment, exactly as in Rust. -/
def splitOnByte (sep : Nat) : List Nat → List (List Nat)
  | [] => [[]]
  | b :: rest =>
    if b = sep then [] :: splitOnByte sep rest
    else
      match splitOnByte sep rest with
      | [] => [[b]]
      | s :: ss => (b :: s) :: ss

/-- The tcp:6970 receive closure: consumes the whole buffer and, when it
is non-empty, produces the reversed concatenation of the line-feed-split
segments followed by one line-feed. -/
def reverseEchoTransform (buffer : List Nat) : Nat × List Nat :=
  let recvdLen := buffer.length
  let data := buffer
  if data = [] then
    (recvdLen, data)
  else
    (recvdLen, ((splitOnByte 10 data).flatten).reverse ++ [10])

/-! ## Fountain fill (tcp:6972 send closure)

Source, `examples/server.rs` lines 190-199:
```
socket.send(|data| {
    if !data.is_empty() {
        for (i, b) in data.iter_mut().enumerate() {
            *b = (i % 256) as u8;
        }
    }
    (data.len(), ())
})
```
-/

/-- The tcp:6972 fill closure applied to the free transmit window it is
handed: every byte of the window is overwritten with its index in the
window modulo 256 (the window's previous contents are irrelevant except
through its length); an empty window is left untouched. -/
def fountainFill (window : List Nat) : List Nat :=
  if window = [] then window
  else window.mapIdx fun i _ => i % 256

/-- Bytes emitted over the life of one fountain connection, as a function
of the sizes of the successive free transmit windows the socket handed to
the fill closure (the buffer filling and draining between polls is what
varies these sizes): the concatenation, in order, of each fill's output. -/
def fountainEmitted (windowSizes : List Nat) : List Nat :=
  (windowSizes.map fun n => fountainFill (List.replicate n 0)).flatten

/-- The sequence `0,1,...,255,0,1,...` truncated to `n` bytes, i.e. the
byte at global position `i` is `i % 256`.  This is the spec's description
of the fountain output; it is compared against `fountainEmitted`. -/
def globalPattern (n : Nat) : List Nat :=
  (List.range n).map fun i => i % 256

/-! ## UTF-8 validation (models `core::str::from_utf8` success) -/

/-- A UTF-8 continuation byte: `0x80 ..= 0xBF`. -/
def utf8Cont (b : Nat) : Bool := 0x80 ≤ b && b ≤ 0xBF

/-- Whether a byte sequence is valid UTF-8, following the table in
RFC 3629 (as `core::str::from_utf8` checks it): ASCII, two- to four-byte
sequences with their restricted second bytes, no overlongs, no
surrogates, nothing above `U+10FFFF`. -/
def utf8Valid : List Nat → Bool
  | [] => true
  | b :: rest =>
    if b ≤ 0x7F then utf8Valid rest
    else if 0xC2 ≤ b && b ≤ 0xDF then
      match rest with
      | c :: r => utf8Cont c && utf8Valid r
      | [] => false
    else if b = 0xE0 then
      match rest with
      | c :: d :: r => (0xA0 ≤ c && c ≤ 0xBF) && utf8Cont d && utf8Valid r
      | _ => false
    else if (0xE1 ≤ b && b ≤ 0xEC) || (0xEE ≤ b && b ≤ 0xEF) then
      match rest with
      | c :: d :: r => utf8Cont c && utf8Cont d && utf8Valid r
      | _ => false
    else if b = 0xED then
      match rest with
      | c :: d :: r => (0x80 ≤ c && c ≤ 0x9F) && utf8Cont d && utf8Valid r
      | _ => false
    else if b = 0xF0 then
      match rest with
      | c :: d :: e :: r =>
        (0x90 ≤ c && c ≤ 0xBF) && utf8Cont d && utf8Cont e && utf8Valid r
      | _ => false
    else if 0xF1 ≤ b && b ≤ 0xF3 then
      match rest with
      | c :: d :: e :: r => utf8Cont c && utf8Cont d && utf8Cont e && utf8Valid r
      | _ => false
    else if b = 0xF4 then
      match rest with
      | c :: d :: e :: r =>
        (0x80 ≤ c && c ≤ 0x8F) && utf8Cont d && utf8Cont e && utf8Valid r
      | _ => false
    else false

/-- What a payload renders to when logged. -/
inductive LogText where
  | text (bytes : List Nat)
  | placeholder
  deriving DecidableEq, Repr

/-- tcp:6970 logging of a received payload, line 141:
`str::from_utf8(data.as_ref()).unwrap_or("(invalid utf8)")` — invalid
UTF-8 is replaced by a placeholder, never a failure. -/
def tcp6970LogRender (d : List Nat) : LogText :=
  if utf8Valid d then .text d else .placeholder

/-- udp:6969 logging of a received payload, line 91:
`str::from_utf8(data).unwrap()` — `none` is the `unwrap` panic on
invalid UTF-8. -/
def udpLogRender (d : List Nat) : Option LogText :=
  if utf8Valid d then some (.text d) else none

/-! ## Socket views and per-iteration service handlers

Each service handler is the body of its section of the main loop,
re-entered once per iteration.  Its input is the snapshot of its socket
that this iteration's `poll` produced; its output is the ordered list of
socket-API calls it makes. -/

/-- Snapshot of a TCP socket's state as the service predicates observe it
after `poll`, plus the receive-buffer contents a `recv` call would drain
this iteration. -/
structure TcpView where
  isOpen : Bool
  isActive : Bool
  mayRecv : Bool
  maySend : Bool
  canSend : Bool
  rxData : List Nat
  deriving DecidableEq, Repr

/-- One socket-API call made by a TCP service handler during an
iteration. -/
inductive SockCall where
  | listen (port : Nat)
  | setKeepAlive (ms : Option Nat)
  | setTimeout (ms : Option Nat)
  | recvConsume (n : Nat)
  | sendSlice (bytes : List Nat)
  | close
  deriving DecidableEq, Repr

/-- Whether a call pushes application data into the transmit buffer. -/
def SockCall.sendsData : SockCall → Bool
  | .sendSlice _ => true
  | _ => false

/-- tcp:6969 greeter, lines 108-118: re-listen when closed; whenever
`can_send`, write the line `"hello\n"` and close in the same iteration. -/
def tcp6969Handler (v : TcpView) : List SockCall :=
  (if !v.isOpen then [.listen 6969] else []) ++
  (if v.canSend then [.sendSlice helloLine, .close] else [])

/-- tcp:6970 reverse-echo, lines 121-160: re-listen when closed; update
the connect/disconnect observability flag; when `may_recv`, drain the
whole receive buffer through `reverseEchoTransform` and, if the response
is non-empty and `can_send`, send it; otherwise, when `may_send`, close.
Returns the calls made and the new `tcp_6970_active` flag. -/
def tcp6970Handler (v : TcpView) (_active6970 : Bool) :
    List SockCall × Bool :=
  let openCalls : List SockCall := if !v.isOpen then [.listen 6970] else []
  let calls : List SockCall :=
    if v.mayRecv then
      let r := reverseEchoTransform v.rxData
      if v.canSend && !(r.2 = []) then
        [.recvConsume r.1, .sendSlice r.2]
      else
        [.recvConsume r.1]
    else if v.maySend then
      [.close]
    else
      []
  (openCalls ++ calls, v.isActive)

/-- tcp:6971 sinkhole, lines 163-181: when closed, listen and configure
the keep-alive (1000 ms) and idle-timeout (2000 ms) timers; when
`may_recv`, drain and discard everything; else when `may_send`, close. -/
def tcp6971Handler (v : TcpView) : List SockCall :=
  (if !v.isOpen then
    [.listen 6971, .setKeepAlive (some 1000), .setTimeout (some 2000)]
  else []) ++
  (if v.mayRecv then
    [.recvConsume v.rxData.length]
  else if v.maySend then
    [.close]
  else [])

/-- tcp:6972 fountain, lines 184-201: re-listen when closed; when
`may_send`, run the fill closure over the free transmit window
(`window`) and enqueue everything it wrote. -/
def tcp6972Handler (v : TcpView) (window : List Nat) : List SockCall :=
  (if !v.isOpen then [.listen 6972] else []) ++
  (if v.maySend then [.sendSlice (fountainFill window)] else [])

/-- One socket-API call made by the UDP service handler. -/
inductive UdpCall where
  | bind (port : Nat)
  | sendSlice (bytes : List Nat) (endpoint : Nat)
  deriving DecidableEq, Repr

/-- udp:6969 echo, lines 82-105: bind when unbound; on a received
datagram, log its payload through `str::from_utf8(..).unwrap()` (panics
on invalid UTF-8) and `send_slice` the fixed `"hello\n"` reply back to
the sender's endpoint, `unwrap`ping the result (panics when the
transmit buffer cannot take the reply).  `recvd` is the datagram `recv`
returned this iteration, if any; `txFull` is whether `send_slice` would
fail with an exhausted transmit buffer.  An `.error` outcome is a panic
of the process. -/
def udpHandler (isOpen : Bool) (recvd : Option (List Nat × Nat))
    (txFull : Bool) : Except String (List UdpCall) :=
  let openCalls : List UdpCall := if !isOpen then [.bind 6969] else []
  match recvd with
  | none => .ok openCalls
  | some (data, endpoint) =>
    match udpLogRender data with
    | none => .error "panicked: str from utf8 unwrap"
    | some _ =>
      if txFull then .error "panicked: send slice unwrap"
      else .ok (openCalls ++ [.sendSlice helloLine endpoint])

/-! ## One iteration of the main loop (lines 72-203) -/

/-- Everything one iteration of the main loop observes: the result of
this iteration's `iface.poll(timestamp)` and the post-poll snapshots of
the five sockets (plus the fountain's free transmit window and the
persistent `tcp_6970_active` flag). -/
structure IterInput where
  pollResult : Except String Bool
  udpOpen : Bool
  udpRecvd : Option (List Nat × Nat)
  udpTxFull : Bool
  tcp1 : TcpView
  tcp2 : TcpView
  tcp3 : TcpView
  tcp4 : TcpView
  fountainWindow : List Nat
  active6970 : Bool

/-- Everything one iteration of the main loop does, service by service. -/
structure IterOutput where
  pollErrorLogged : Option String
  udp : Except String (List UdpCall)
  greeter : List SockCall
  reverseEcho : List SockCall
  sinkhole : List SockCall
  fountain : List SockCall
  newActive6970 : Bool
  deriving Repr

/-- One iteration of the main loop: a poll error is logged and nothing
else (`Ok(_) => {}` / `Err(e) => debug!`), then the five service
handlers run unconditionally, in their fixed order. -/
def loopIteration (w : IterInput) : IterOutput :=
  { pollErrorLogged :=
      match w.pollResult with
      | .ok _ => none
      | .error e => some e
    udp := udpHandler w.udpOpen w.udpRecvd w.udpTxFull
    greeter := tcp6969Handler w.tcp1
    reverseEcho := (tcp6970Handler w.tcp2 w.active6970).1
    sinkhole := tcp6971Handler w.tcp3
    fountain := tcp6972Handler w.tcp4 w.fountainWindow
    newActive6970 := (tcp6970Handler w.tcp2 w.active6970).2 }

/-- `true` on `Ok`, `false` on the modelled panic. -/
def exceptOk {ε α : Type} : Except ε α → Bool
  | .ok _ => true
  | .error _ => false

/-- The application payloads pushed into the transmit buffer by a list of
calls, in order. -/
def sentPayloads (cs : List SockCall) : List (List Nat) :=
  cs.filterMap fun c =>
    match c with
    | .sendSlice b => some b
    | _ => none

/-! ## Greeter connection lifecycle (for counting greetings)

Modelled from the spec: the TCP socket implementation is not among the
sources, so the lifecycle the greeter's socket goes through —
`{Closed} -> listen() -> {Listening} -> (peer connects) -> {Established}`,
`close()` moving toward `Closing`, and the peer's acknowledgement
returning the socket to closed, ready to re-listen — is taken from
§4.3 of the spec.  The handler run each iteration is the embedded
`tcp6969Handler` itself. -/

/-- Lifecycle states of the greeter's socket between iterations. -/
inductive GreetState where
  | listening
  | established
  | closing
  | closed
  deriving DecidableEq, Repr

/-- Peer/network events between two iterations: a new client connects, the
peer acknowledges our close, or nothing relevant happens. -/
inductive GreetEvent where
  | connect
  | finAck
  | quiet
  deriving DecidableEq, Repr

/-- Modelled from the spec: the socket-state snapshot `poll` presents to
the greeter in each lifecycle state.  `can_send` is true exactly when a
peer is connected and the connection is not yet closing (§3, §4.3); a
freshly established connection has an empty transmit buffer, so room for
the greeting is always available. -/
def greetView : GreetState → TcpView
  | .listening => ⟨true, false, false, false, false, []⟩
  | .established => ⟨true, true, true, true, true, []⟩
  | .closing => ⟨true, true, false, false, false, []⟩
  | .closed => ⟨false, false, false, false, false, []⟩

/-- Modelled from the spec: how a peer/network event moves the socket
between iterations — a connect is accepted only while listening, and the
peer's acknowledgement of our close returns the socket to closed. -/
def greetEnv : GreetEvent → GreetState → GreetState
  | .connect, .listening => .established
  | .finAck, .closing => .closed
  | _, s => s

/-- Modelled from the spec: the effect of the handler's own calls on the
lifecycle state — `listen` re-arms a closed socket, `close` starts the
teardown. -/
def applyGreetCalls : List SockCall → GreetState → GreetState
  | [], s => s
  | .listen _ :: rest, _ => applyGreetCalls rest .listening
  | .close :: rest, _ => applyGreetCalls rest .closing
  | _ :: rest, s => applyGreetCalls rest s

/-- Run the greeter over a sequence of between-iteration events: each
iteration first applies the event, then runs the source handler
`tcp6969Handler` on the resulting snapshot; collects every payload the
handler sent, over the whole run. -/
def greetRun : List GreetEvent → GreetState → List (List Nat)
  | [], _ => []
  | e :: es, s =>
    let s1 := greetEnv e s
    let calls := tcp6969Handler (greetView s1)
    sentPayloads calls ++ greetRun es (applyGreetCalls calls s1)

/-- The number of connections accepted over a run: iterations whose event
is a connect arriving while the socket is listening. -/
def connectCount : List GreetEvent → GreetState → Nat
  | [], _ => 0
  | e :: es, s =>
    let s1 := greetEnv e s
    let s2 := applyGreetCalls (tcp6969Handler (greetView s1)) s1
    if s = .listening ∧ e = .connect then connectCount es s2 + 1
    else connectCount es s2

/-! ## Timer configuration (sinkhole) -/

/-- The two per-socket protocol-engine timers the sinkhole touches. -/
structure TimerConfig where
  keepAlive : Option Nat
  timeout : Option Nat
  deriving DecidableEq, Repr

/-- The timer configuration left behind by a list of handler calls. -/
def applyTimerCalls : List SockCall → TimerConfig → TimerConfig
  | [], c => c
  | .setKeepAlive m :: rest, c => applyTimerCalls rest { c with keepAlive := m }
  | .setTimeout m :: rest, c => applyTimerCalls rest { c with timeout := m }
  | _ :: rest, c => applyTimerCalls rest c

/-- How many of the calls configure a protocol-level timer. -/
def timerCallCount (cs : List SockCall) : Nat :=
  (cs.filter fun c =>
    match c with
    | .setKeepAlive _ => true
    | .setTimeout _ => true
    | _ => false).length

/-- Modelled from the spec: the protocol engine (not among the sources)
forcibly resets a connection that has seen no traffic for longer than its
configured idle timeout, with no service action involved (§4.5, §5). -/
def engineIdleReset (c : TimerConfig) (idleMs : Nat) : Bool :=
  match c.timeout with
  | some t => t < idleMs
  | none => false

/-! ## Supporting lemmas -/

theorem splitOnByte_ne_nil (sep : Nat) (l : List Nat) :
    splitOnByte sep l ≠ [] := by
  induction l with
  | nil => simp [splitOnByte]
  | cons b rest ih =>
    by_cases h : b = sep
    · simp [splitOnByte, h]
    · simp only [splitOnByte, if_neg h]
      cases hs : splitOnByte sep rest <;> simp

theorem splitOnByte_flatten (sep : Nat) (l : List Nat) :
    (splitOnByte sep l).flatten = l.filter fun b => b ≠ sep := by
  induction l with
  | nil => simp [splitOnByte]
  | cons b rest ih =>
    by_cases h : b = sep
    · simp [splitOnByte, h, ih]
    · simp only [splitOnByte, if_neg h]
      cases hs : splitOnByte sep rest with
      | nil => exact absurd hs (splitOnByte_ne_nil sep rest)
      | cons s ss =>
        rw [hs] at ih
        simp only [List.flatten_cons] at ih ⊢
        simp only [ne_eq, decide_not] at ih ⊢
        simp [List.filter_cons, h, ← ih]

theorem reverseEchoTransform_fst (buf : List Nat) :
    (reverseEchoTransform buf).1 = buf.length := by
  by_cases h : buf = [] <;> simp [reverseEchoTransform, h]

theorem mapIdx_const_eq_range_map (f : Nat → Nat) (l : List Nat) :
    (l.mapIdx fun i _ => f i) = (List.range l.length).map f := by
  induction l generalizing f with
  | nil => simp
  | cons a l ih =>
    simp [List.mapIdx_cons, List.range_succ_eq_map, ih, Function.comp]

theorem fountainFill_eq_globalPattern (window : List Nat) :
    fountainFill window = globalPattern window.length := by
  by_cases h : window = []
  · simp [fountainFill, globalPattern, h]
  · simp [fountainFill, globalPattern, h, mapIdx_const_eq_range_map]

theorem greetRun_replicate (evs : List GreetEvent) :
    ∀ s : GreetState, s ≠ .established →
      greetRun evs s = List.replicate (connectCount evs s) helloLine := by
  induction evs with
  | nil => intro s _; rfl
  | cons e es ih =>
    intro s hs
    cases s with
    | established => exact absurd rfl hs
    | listening =>
      cases e with
      | connect =>
        simp [greetRun, connectCount, greetEnv, greetView, tcp6969Handler,
          sentPayloads, applyGreetCalls, List.replicate_succ,
          ih GreetState.closing (by simp)]
      | finAck =>
        simp [greetRun, connectCount, greetEnv, greetView, tcp6969Handler,
          sentPayloads, applyGreetCalls, ih GreetState.listening (by simp)]
      | quiet =>
        simp [greetRun, connectCount, greetEnv, greetView, tcp6969Handler,
          sentPayloads, applyGreetCalls, ih GreetState.listening (by simp)]
    | closing =>
      cases e with
      | connect =>
        simp [greetRun, connectCount, greetEnv, greetView, tcp6969Handler,
          sentPayloads, applyGreetCalls, ih GreetState.closing (by simp)]
      | finAck =>
        simp [greetRun, connectCount, greetEnv, greetView, tcp6969Handler,
          sentPayloads, applyGreetCalls, ih GreetState.listening (by simp)]
      | quiet =>
        simp [greetRun, connectCount, greetEnv, greetView, tcp6969Handler,
          sentPayloads, applyGreetCalls, ih GreetState.closing (by simp)]
    | closed =>
      cases e with
      | connect =>
        simp [greetRun, connectCount, greetEnv, greetView, tcp6969Handler,
          sentPayloads, applyGreetCalls, ih GreetState.listening (by simp)]
      | finAck =>
        simp [greetRun, connectCount, greetEnv, greetView, tcp6969Handler,
          sentPayloads, applyGreetCalls, ih GreetState.listening (by simp)]
      | quiet =>
        simp [greetRun, connectCount, greetEnv, greetView, tcp6969Handler,
          sentPayloads, applyGreetCalls, ih GreetState.listening (by simp)]

/-! ## Claim theorems -/

/-- C1, as stated, is false: the fill closure restarts its byte index at
zero on every invocation, so two successive fills of three bytes each
emit `0,1,2,0,1,2` — not the globally indexed sequence `0,1,2,3,4,5`
the claim requires for six delivered bytes. -/
theorem claim1_counterexample :
    ¬ fountainEmitted [3, 3] = globalPattern (List.sum [3, 3]) := by
  decide

/-- C1 amended: within each single fill callback the byte at offset `i`
of the handed window is `i % 256`, so the bytes emitted over a
connection are the concatenation of per-window patterns, each restarting
at zero — the position index is local to each fill callback, not global
to the connection. -/
theorem claim1_fountain_local_pattern :
    (∀ window : List Nat, fountainFill window = globalPattern window.length) ∧
    ∀ sizes : List Nat,
      fountainEmitted sizes = (sizes.map globalPattern).flatten := by
  refine ⟨fountainFill_eq_globalPattern, ?_⟩
  intro sizes
  simp [fountainEmitted, fountainFill_eq_globalPattern]

/-- C2: the tcp:6970 transform maps any non-empty payload to the reverse
of the concatenation of its line-feed-split segments (equivalently, the
reverse of the payload with every line-feed removed) followed by exactly
one line-feed; an empty buffer produces no response; an input of only
line-feeds produces just a line-feed; and `"abc\ndef\n"` produces
`"fedcba\n"`. -/
theorem claim2_reverse_echo :
    (∀ buf : List Nat, buf ≠ [] →
      (reverseEchoTransform buf).2 =
        ((splitOnByte 10 buf).flatten).reverse ++ [10] ∧
      (reverseEchoTransform buf).2 =
        (buf.filter fun b => b ≠ 10).reverse ++ [10]) ∧
    reverseEchoTransform [] = (0, []) ∧
    (reverseEchoTransform [10, 10]).2 = [10] ∧
    (reverseEchoTransform [97, 98, 99, 10, 100, 101, 102, 10]).2 =
      [102, 101, 100, 99, 98, 97, 10] := by
  refine ⟨?_, by decide, by decide, by decide⟩
  intro buf hbuf
  constructor
  · simp [reverseEchoTransform, hbuf]
  · simp [reverseEchoTransform, hbuf, splitOnByte_flatten]

/-- C2 witness: the theorem applied to the concrete payload
`"abc\ndef\n"`. -/
theorem claim2_reverse_echo_witness :
    (reverseEchoTransform [97, 98, 99, 10, 100, 101, 102, 10]).2 =
      (([97, 98, 99, 10, 100, 101, 102, 10].filter fun b => b ≠ 10)).reverse
        ++ [10] :=
  (claim2_reverse_echo.1 [97, 98, 99, 10, 100, 101, 102, 10] (by decide)).2

/-- C3, as stated, is false: when the reply cannot be placed in the
transmit buffer, the handler does not drop it and continue — the
`unwrap` on `send_slice` panics.  Concrete input: socket bound, a
datagram `"h"` received from endpoint 7, transmit buffer full. -/
theorem claim3_counterexample :
    exceptOk (udpHandler true (some ([104], 7)) true) = false := by
  decide

/-- C3 amended: for every received datagram (with a payload the logging
path accepts), the reply `"hello\n"` is sent to the exact sending
endpoint in the same iteration when the transmit buffer has room; when
it does not, the handler panics on the `unwrap` of the failed
`send_slice` (the reply is not dropped-and-continued). -/
theorem claim3_udp_reply :
    ∀ (isOpen : Bool) (data : List Nat) (ep : Nat),
      utf8Valid data = true →
      udpHandler isOpen (some (data, ep)) false =
        .ok ((if !isOpen then [UdpCall.bind 6969] else []) ++
          [.sendSlice helloLine ep]) ∧
      exceptOk (udpHandler isOpen (some (data, ep)) true) = false := by
  intro isOpen data ep h
  constructor <;> simp [udpHandler, udpLogRender, h, exceptOk]

/-- C3 witness: the theorem applied to a bound socket and datagram
`"h"` from endpoint 5. -/
theorem claim3_udp_reply_witness :
    udpHandler true (some ([104], 5)) false =
      .ok ((if !true then [UdpCall.bind 6969] else []) ++
        [.sendSlice helloLine 5]) ∧
    exceptOk (udpHandler true (some ([104], 5)) true) = false :=
  claim3_udp_reply true [104] 5 (by decide)

/-- C4, as stated, is false: a datagram whose payload is the single
invalid-UTF-8 byte `0xFF`, received on udp:6969 with room to reply,
makes the iteration fail — the `unwrap` of `str::from_utf8` in the
logging path panics. -/
theorem claim4_counterexample :
    exceptOk (udpHandler true (some ([255], 3)) false) = false := by
  decide

/-- C4 amended: the tcp:6970 logging path tolerates invalid UTF-8 by
rendering a placeholder (and renders valid payloads as-is), but the
udp:6969 logging path panics on any invalid-UTF-8 payload. -/
theorem claim4_utf8_handling :
    (∀ d : List Nat, utf8Valid d = false →
      tcp6970LogRender d = .placeholder) ∧
    (∀ d : List Nat, utf8Valid d = true → tcp6970LogRender d = .text d) ∧
    ∀ (isOpen : Bool) (d : List Nat) (ep : Nat) (txFull : Bool),
      utf8Valid d = false →
      exceptOk (udpHandler isOpen (some (d, ep)) txFull) = false := by
  refine ⟨?_, ?_, ?_⟩
  · intro d h; simp [tcp6970LogRender, h]
  · intro d h; simp [tcp6970LogRender, h]
  · intro isOpen d ep txFull h
    simp [udpHandler, udpLogRender, h, exceptOk]

/-- C4 witness: the theorem applied to the invalid payload `[0xFF]` and
the valid payload `"h"`. -/
theorem claim4_utf8_handling_witness :
    tcp6970LogRender [255] = .placeholder ∧
    tcp6970LogRender [104] = .text [104] ∧
    exceptOk (udpHandler false (some ([255], 9)) false) = false :=
  ⟨claim4_utf8_handling.1 [255] (by decide),
   claim4_utf8_handling.2.1 [104] (by decide),
   claim4_utf8_handling.2.2 false [255] 9 false (by decide)⟩

/-- C5: a poll error changes nothing in an iteration except that it is
logged — every one of the five service handlers produces exactly what it
would have produced had poll succeeded, so the loop neither aborts nor
skips a service because of a poll error. -/
theorem claim5_poll_error_nonfatal :
    ∀ (w : IterInput) (e : String) (b : Bool),
      (loopIteration { w with pollResult := .error e }).pollErrorLogged =
        some e ∧
      (loopIteration { w with pollResult := .error e }).udp =
        (loopIteration { w with pollResult := .ok b }).udp ∧
      (loopIteration { w with pollResult := .error e }).greeter =
        (loopIteration { w with pollResult := .ok b }).greeter ∧
      (loopIteration { w with pollResult := .error e }).reverseEcho =
        (loopIteration { w with pollResult := .ok b }).reverseEcho ∧
      (loopIteration { w with pollResult := .error e }).sinkhole =
        (loopIteration { w with pollResult := .ok b }).sinkhole ∧
      (loopIteration { w with pollResult := .error e }).fountain =
        (loopIteration { w with pollResult := .ok b }).fountain ∧
      (loopIteration { w with pollResult := .error e }).newActive6970 =
        (loopIteration { w with pollResult := .ok b }).newActive6970 := by
  intro w e b
  exact ⟨rfl, rfl, rfl, rfl, rfl, rfl, rfl⟩

/-- C6: whenever the greeter can send, it writes exactly the line
`"hello\n"` and unconditionally closes in the same iteration; and over
any run of the connection lifecycle starting from a listening socket,
the payloads sent are exactly one `"hello\n"` per accepted connection —
never partial, never duplicated. -/
theorem claim6_greeter :
    (∀ v : TcpView, v.canSend = true →
      tcp6969Handler v =
        (if !v.isOpen then [SockCall.listen 6969] else []) ++
          [.sendSlice helloLine, .close]) ∧
    ∀ evs : List GreetEvent,
      greetRun evs .listening =
        List.replicate (connectCount evs .listening) helloLine := by
  constructor
  · intro v h
    simp [tcp6969Handler, h]
  · intro evs
    exact greetRun_replicate evs .listening (by simp)

/-- C6 witness: the theorem applied to the established-connection
snapshot and to a three-iteration run with two accepted connections. -/
theorem claim6_greeter_witness :
    tcp6969Handler (greetView .established) =
      (if !(greetView .established).isOpen then [SockCall.listen 6969]
        else []) ++ [.sendSlice helloLine, .close] ∧
    greetRun [.connect, .finAck, .connect] .listening =
      List.replicate
        (connectCount [.connect, .finAck, .connect] .listening)
        helloLine :=
  ⟨claim6_greeter.1 (greetView .established) (by decide),
   claim6_greeter.2 [.connect, .finAck, .connect]⟩

/-- C7: on tcp:6970 and tcp:6971, in any iteration where the peer has
closed its sending direction (`may_recv` false) while the local send
side is still open (`may_send` true), the handler issues exactly a close
in that same iteration; moreover, whenever `may_recv` is false neither
handler pushes any application data. -/
theorem claim7_half_duplex :
    (∀ (v : TcpView) (a : Bool), v.isOpen = true → v.mayRecv = false →
      v.maySend = true →
      (tcp6970Handler v a).1 = [SockCall.close] ∧
      tcp6971Handler v = [SockCall.close]) ∧
    ∀ (v : TcpView) (a : Bool), v.mayRecv = false →
      sentPayloads (tcp6970Handler v a).1 = [] ∧
      sentPayloads (tcp6971Handler v) = [] := by
  constructor
  · intro v a ho hr hm
    constructor <;> simp [tcp6970Handler, tcp6971Handler, ho, hr, hm]
  · intro v a h
    by_cases ho : v.isOpen <;> by_cases hm : v.maySend <;>
      simp [tcp6970Handler, tcp6971Handler, sentPayloads, h, ho, hm]

/-- C7 witness: the theorem applied to the snapshot of an open connection
whose peer has closed (`may_recv` false, `may_send` true). -/
theorem claim7_half_duplex_witness :
    (tcp6970Handler ⟨true, true, false, true, false, []⟩ true).1 =
      [SockCall.close] ∧
    tcp6971Handler ⟨true, true, false, true, false, []⟩ =
      [SockCall.close] ∧
    sentPayloads
      (tcp6970Handler ⟨true, true, false, true, false, []⟩ true).1 = [] ∧
    sentPayloads (tcp6971Handler ⟨true, true, false, true, false, []⟩) =
      [] :=
  ⟨(claim7_half_duplex.1 ⟨true, true, false, true, false, []⟩ true
      rfl rfl rfl).1,
   (claim7_half_duplex.1 ⟨true, true, false, true, false, []⟩ true
      rfl rfl rfl).2,
   (claim7_half_duplex.2 ⟨true, true, false, true, false, []⟩ true rfl).1,
   (claim7_half_duplex.2 ⟨true, true, false, true, false, []⟩ true rfl).2⟩

/-- C8: a receive event that drains zero bytes on tcp:6970 produces no
send at all — the handler performs only the (full, zero-length) drain,
and no payload is pushed. -/
theorem claim8_empty_recv_no_send :
    ∀ (v : TcpView) (a : Bool), v.mayRecv = true → v.rxData = [] →
      (tcp6970Handler v a).1 =
        (if !v.isOpen then [SockCall.listen 6970] else []) ++
          [.recvConsume 0] ∧
      sentPayloads (tcp6970Handler v a).1 = [] := by
  intro v a h hr
  have hz : reverseEchoTransform v.rxData = (0, []) := by
    rw [hr]; rfl
  constructor
  · simp [tcp6970Handler, h, hz]
  · by_cases ho : v.isOpen <;>
      simp [tcp6970Handler, sentPayloads, h, hz, ho]

/-- C8 witness: the theorem applied to an open, readable socket whose
receive buffer is empty. -/
theorem claim8_empty_recv_no_send_witness :
    (tcp6970Handler ⟨true, true, true, true, true, []⟩ true).1 =
      (if !(true : Bool) then [SockCall.listen 6970] else []) ++
        [.recvConsume 0] ∧
    sentPayloads (tcp6970Handler ⟨true, true, true, true, true, []⟩ true).1
      = [] :=
  claim8_empty_recv_no_send ⟨true, true, true, true, true, []⟩ true rfl rfl

/-- C9: when the sinkhole (re)arms its listener, it configures exactly
two protocol-level timers — keep-alive 1000 ms and idle timeout 2000 ms;
with that configuration the modelled protocol engine forcibly resets the
connection at any idle time beyond 2000 ms, with no action by the
service; and no timer call is ever made while the socket is open. -/
theorem claim9_sinkhole_timers :
    ∀ v : TcpView, v.isOpen = false →
      applyTimerCalls (tcp6971Handler v) ⟨none, none⟩ =
        ⟨some 1000, some 2000⟩ ∧
      timerCallCount (tcp6971Handler v) = 2 ∧
      (∀ idleMs : Nat, 2000 < idleMs →
        engineIdleReset (applyTimerCalls (tcp6971Handler v) ⟨none, none⟩)
          idleMs = true) ∧
      ∀ v2 : TcpView, v2.isOpen = true →
        timerCallCount (tcp6971Handler v2) = 0 := by
  intro v h
  refine ⟨?_, ?_, ?_, ?_⟩
  · by_cases hr : v.mayRecv <;> by_cases hm : v.maySend <;>
      simp [tcp6971Handler, applyTimerCalls, h, hr, hm]
  · by_cases hr : v.mayRecv <;> by_cases hm : v.maySend <;>
      simp [tcp6971Handler, timerCallCount, h, hr, hm]
  · intro idleMs hi
    by_cases hr : v.mayRecv <;> by_cases hm : v.maySend <;>
      simp [tcp6971Handler, applyTimerCalls, engineIdleReset, h, hr, hm, hi]
  · intro v2 h2
    by_cases hr : v2.mayRecv <;> by_cases hm : v2.maySend <;>
      simp [tcp6971Handler, timerCallCount, h2, hr, hm]

/-- C9 witness: the theorem applied to a closed sinkhole socket, an idle
time of 2500 ms, and an open socket for the last conjunct. -/
theorem claim9_sinkhole_timers_witness :
    applyTimerCalls
      (tcp6971Handler ⟨false, false, false, false, false, []⟩)
      ⟨none, none⟩ = ⟨some 1000, some 2000⟩ ∧
    timerCallCount
      (tcp6971Handler ⟨false, false, false, false, false, []⟩) = 2 ∧
    engineIdleReset
      (applyTimerCalls
        (tcp6971Handler ⟨false, false, false, false, false, []⟩)
        ⟨none, none⟩) 2500 = true ∧
    timerCallCount (tcp6971Handler ⟨true, true, true, true, true, []⟩) =
      0 :=
  ⟨(claim9_sinkhole_timers ⟨false, false, false, false, false, []⟩ rfl).1,
   (claim9_sinkhole_timers ⟨false, false, false, false, false, []⟩
      rfl).2.1,
   (claim9_sinkhole_timers ⟨false, false, false, false, false, []⟩
      rfl).2.2.1 2500 (by decide),
   (claim9_sinkhole_timers ⟨false, false, false, false, false, []⟩
      rfl).2.2.2 ⟨true, true, true, true, true, []⟩ rfl⟩

/-- C10: on tcp:6970, whenever `may_recv` holds the handler consumes the
entire receive buffer in that iteration regardless of whether a response
can be sent; when `can_send` is false, no payload is pushed — and the
only state carried to the next iteration is the activity flag, which
equals the snapshot field `isActive`, so the computed response is not
retained anywhere. -/
theorem claim10_reverse_echo_consume_discard :
    ∀ (v : TcpView) (a : Bool), v.mayRecv = true →
      SockCall.recvConsume v.rxData.length ∈ (tcp6970Handler v a).1 ∧
      (v.canSend = false → sentPayloads (tcp6970Handler v a).1 = []) ∧
      (tcp6970Handler v a).2 = v.isActive := by
  intro v a h
  refine ⟨?_, ?_, rfl⟩
  · have h1 : (reverseEchoTransform v.rxData).1 = v.rxData.length :=
      reverseEchoTransform_fst v.rxData
    by_cases hc :
        v.canSend && !((reverseEchoTransform v.rxData).2 = []) <;>
      simp [tcp6970Handler, h, hc, h1]
  · intro hcs
    by_cases ho : v.isOpen <;>
      simp [tcp6970Handler, sentPayloads, h, hcs, ho]

/-- C10 witness: the theorem applied to an open, readable socket holding
two bytes whose transmit side cannot accept data. -/
theorem claim10_reverse_echo_consume_discard_witness :
    SockCall.recvConsume
        ((⟨true, true, true, true, false, [10, 97]⟩ : TcpView).rxData.length)
      ∈ (tcp6970Handler ⟨true, true, true, true, false, [10, 97]⟩ true).1 ∧
    sentPayloads
      (tcp6970Handler ⟨true, true, true, true, false, [10, 97]⟩ true).1 =
      [] ∧
    (tcp6970Handler ⟨true, true, true, true, false, [10, 97]⟩ true).2 =
      true :=
  ⟨(claim10_reverse_echo_consume_discard
      ⟨true, true, true, true, false, [10, 97]⟩ true rfl).1,
   (claim10_reverse_echo_consume_discard
      ⟨true, true, true, true, false, [10, 97]⟩ true rfl).2.1 rfl,
   (claim10_reverse_echo_consume_discard
      ⟨true, true, true, true, false, [10, 97]⟩ true rfl).2.2⟩

end SmoltcpServer
